import Mathlib

/-!
Verification of the tryCatch utility (src/tryCatch.ts).

The repository exports two functions:

  tryCatch   : await a promise, return { data, error: null } on fulfillment
               and { data: null, error } on rejection;
  tryCatchFn : invoke a thunk inside try/catch, await its result, and
               normalize success and failure the same way.

The embedding models JavaScript values relevant to the wrapper, promise
settlement as a three-way outcome (resolved, rejected, or forever pending),
and a thunk by its observable behavior when invoked (throw synchronously,
return a plain value, or return a promise). The result record is the flat
record with null sentinels that the source constructs at runtime.
-/

namespace TryCatchTS

/-- JavaScript runtime values relevant to the wrapper: the null sentinel,
undefined, numbers, strings, booleans, and error objects (a generic Error
and a RangeError, each carrying a message). -/
inductive JSVal where
  | jsNull
  | undef
  | num (n : Int)
  | str (s : String)
  | boolVal (b : Bool)
  | errorObj (msg : String)
  | rangeError (msg : String)
  deriving DecidableEq, Repr

/-- Observable settlement of a JS promise producing a value of type α:
it resolves with a value, rejects with a JS value, or never settles. -/
inductive POutcome (α : Type) where
  | resolved (v : α)
  | rejected (e : JSVal)
  | pending
  deriving DecidableEq, Repr

/-- The flat result record the source builds (src/tryCatch.ts lines 7-28):
a Success is { data, error: null } and a Failure is { data: null, error },
both represented by one record with a null sentinel in the unused slot. -/
structure Result where
  data : JSVal
  error : JSVal
  deriving DecidableEq, Repr

/-- Embedding of tryCatch (src/tryCatch.ts lines 38-47): await the promise;
on fulfillment with v return { data: v, error: null }; on rejection with e
return { data: null, error: e }; if the input never settles the returned
promise never settles either. The returned promise only ever resolves. -/
def tryCatch : POutcome JSVal → POutcome Result
  | .resolved v => .resolved ⟨v, .jsNull⟩
  | .rejected e => .resolved ⟨.jsNull, e⟩
  | .pending => .pending

/-- Observable behavior of a zero-argument thunk when invoked: it throws
synchronously, returns a plain value, or returns an already-built promise. -/
inductive ThunkBehavior where
  | throws (e : JSVal)
  | returnsValue (v : JSVal)
  | returnsPromise (p : POutcome JSVal)
  deriving DecidableEq, Repr

/-- What an invocation handed to await: a plain value or a promise. -/
inductive Invoked where
  | plain (v : JSVal)
  | promised (p : POutcome JSVal)
  deriving DecidableEq, Repr

/-- The call fn() inside the try block of tryCatchFn (src/tryCatch.ts
line 61): a synchronous throw surfaces as an exception before any await
happens; otherwise invocation yields a value or a promise to be awaited. -/
def invoke : ThunkBehavior → Except JSVal Invoked
  | .throws e => .error e
  | .returnsValue v => .ok (.plain v)
  | .returnsPromise p => .ok (.promised p)

/-- Awaiting the invocation result: a plain (non-thenable) value awaits to
itself immediately; a promise contributes its own settlement. -/
def awaitInvoked : Invoked → POutcome JSVal
  | .plain v => .resolved v
  | .promised p => p

/-- Embedding of tryCatchFn (src/tryCatch.ts lines 57-66): invoke the thunk
inside try/catch. A synchronous throw is caught at once and becomes a
Failure with no await performed; otherwise the returned value is awaited
and the settlement is normalized exactly as in tryCatch. -/
def tryCatchFn (t : ThunkBehavior) : POutcome Result :=
  match invoke t with
  | .error e => .resolved ⟨.jsNull, e⟩
  | .ok a =>
    match awaitInvoked a with
    | .resolved v => .resolved ⟨v, .jsNull⟩
    | .rejected e => .resolved ⟨.jsNull, e⟩
    | .pending => .pending

/-- True exactly when the promise rejected. -/
def POutcome.isRejected {α : Type} : POutcome α → Bool
  | .rejected _ => true
  | _ => false

/-- True exactly when the promise resolved with a value. -/
def POutcome.isResolved {α : Type} : POutcome α → Bool
  | .resolved _ => true
  | _ => false

/-- True exactly when the promise settles (resolves or rejects). -/
def POutcome.settles {α : Type} : POutcome α → Bool
  | .pending => false
  | _ => true

/-- A thunk settles unless it returns a forever-pending promise. -/
def ThunkBehavior.settles : ThunkBehavior → Bool
  | .returnsPromise p => p.settles
  | _ => true

/-- True exactly for JS error objects (Error or RangeError). -/
def isErrorObject : JSVal → Bool
  | .errorObj _ => true
  | .rangeError _ => true
  | _ => false

/-- The discrimination the spec prescribes to callers: a result is treated
as a success exactly when its error slot is the null sentinel. -/
def classifiedAsSuccess (r : Result) : Bool :=
  match r.error with
  | .jsNull => true
  | _ => false

/-- The mutual-exclusivity shape the spec asserts of every settled result:
exactly one slot holds a non-absent value, never both and never neither. -/
def mutuallyExclusive (r : Result) : Prop :=
  (r.data ≠ JSVal.jsNull ∧ r.error = JSVal.jsNull) ∨
  (r.data = JSVal.jsNull ∧ r.error ≠ JSVal.jsNull)

/-- At most one populated slot, stated over the outer promise: whenever it
resolves to a result record, at least one slot is the null sentinel. -/
def atMostOnePopulated : POutcome Result → Prop
  | .resolved r => r.data = JSVal.jsNull ∨ r.error = JSVal.jsNull
  | _ => True

/-- C1: for every input, the promise returned by tryCatch or tryCatchFn
never rejects, and whenever the input settles (every thunk that throws
synchronously, fails asynchronously, or returns a plain value settles),
the returned promise settles successfully with a Result value. -/
theorem c1_never_rejects (p : POutcome JSVal) (t : ThunkBehavior) :
    (tryCatch p).isRejected = false ∧ (tryCatchFn t).isRejected = false ∧
    (p.settles = true → (tryCatch p).isResolved = true) ∧
    (t.settles = true → (tryCatchFn t).isResolved = true) := by
  refine ⟨?_, ?_, ?_, ?_⟩
  · cases p <;> rfl
  · cases t with
    | throws e => rfl
    | returnsValue v => rfl
    | returnsPromise q => cases q <;> rfl
  · cases p with
    | resolved v => intro _; rfl
    | rejected e => intro _; rfl
    | pending => intro h; exact absurd h (by decide)
  · cases t with
    | throws e => intro _; rfl
    | returnsValue v => intro _; rfl
    | returnsPromise q =>
      cases q with
      | resolved v => intro _; rfl
      | rejected e => intro _; rfl
      | pending => intro h; exact absurd h (by decide)

/-- Witness for C1 at concrete inputs: a promise resolving to 1 and a
thunk that throws the string "e". -/
theorem c1_never_rejects_witness :
    (tryCatch (POutcome.resolved (JSVal.num 1))).isRejected = false ∧
    (tryCatchFn (ThunkBehavior.throws (JSVal.str "e"))).isRejected = false ∧
    (tryCatch (POutcome.resolved (JSVal.num 1))).isResolved = true ∧
    (tryCatchFn (ThunkBehavior.throws (JSVal.str "e"))).isResolved = true := by
  have h := c1_never_rejects (POutcome.resolved (JSVal.num 1))
    (ThunkBehavior.throws (JSVal.str "e"))
  exact ⟨h.1, h.2.1, h.2.2.1 (by decide), h.2.2.2 (by decide)⟩

/-- C2 counterexample: a promise that resolves to the value null settles
tryCatch with the record { data: null, error: null }, in which both slots
hold the absent marker, refuting mutual exclusivity as stated. -/
theorem c2_counterexample :
    tryCatch (POutcome.resolved JSVal.jsNull) =
      POutcome.resolved ⟨JSVal.jsNull, JSVal.jsNull⟩ ∧
    ¬ mutuallyExclusive ⟨JSVal.jsNull, JSVal.jsNull⟩ :=
  ⟨rfl, fun h => h.elim (fun hc => hc.1 rfl) (fun hc => hc.2 rfl)⟩

/-- C2 (amended): for every Result produced by a settlement of tryCatch or
tryCatchFn, at most one slot holds a non-absent value (never both
populated); both slots can be the absent marker when the settled success
or failure value is itself null. -/
theorem c2_at_most_one_populated (p : POutcome JSVal) (t : ThunkBehavior) :
    atMostOnePopulated (tryCatch p) ∧ atMostOnePopulated (tryCatchFn t) := by
  constructor
  · cases p with
    | resolved v => exact Or.inr rfl
    | rejected e => exact Or.inl rfl
    | pending => trivial
  · cases t with
    | throws e => exact Or.inl rfl
    | returnsValue v => exact Or.inr rfl
    | returnsPromise q =>
      cases q with
      | resolved v => exact Or.inr rfl
      | rejected e => exact Or.inl rfl
      | pending => trivial

/-- C3: an operation settling successfully with v yields, through tryCatch
on the promise and through tryCatchFn on a thunk producing v (directly or
via a promise), exactly { data: v, error: null } with v unchanged. -/
theorem c3_success_roundtrip (v : JSVal) :
    tryCatch (POutcome.resolved v) = POutcome.resolved ⟨v, JSVal.jsNull⟩ ∧
    tryCatchFn (ThunkBehavior.returnsValue v) =
      POutcome.resolved ⟨v, JSVal.jsNull⟩ ∧
    tryCatchFn (ThunkBehavior.returnsPromise (POutcome.resolved v)) =
      POutcome.resolved ⟨v, JSVal.jsNull⟩ ∧
    tryCatch (POutcome.resolved (JSVal.str "ok")) =
      POutcome.resolved ⟨JSVal.str "ok", JSVal.jsNull⟩ :=
  ⟨rfl, rfl, rfl, rfl⟩

/-- C4: an operation failing with e, whether as a synchronous throw or an
asynchronous rejection, yields exactly { data: null, error: e } with e
unchanged, through both tryCatch and tryCatchFn. -/
theorem c4_failure_roundtrip (e : JSVal) :
    tryCatch (POutcome.rejected e) = POutcome.resolved ⟨JSVal.jsNull, e⟩ ∧
    tryCatchFn (ThunkBehavior.throws e) =
      POutcome.resolved ⟨JSVal.jsNull, e⟩ ∧
    tryCatchFn (ThunkBehavior.returnsPromise (POutcome.rejected e)) =
      POutcome.resolved ⟨JSVal.jsNull, e⟩ :=
  ⟨rfl, rfl, rfl⟩

/-- C5: a thunk that throws synchronously is caught before any await (the
invocation surfaces the exception, so the await branch of tryCatchFn is
never reached), the thrown value becomes the Failure record, the returned
promise never rejects, and concretely a thrown RangeError "bad" yields
{ data: null, error: RangeError "bad" }. -/
theorem c5_sync_throw_captured (e : JSVal) :
    invoke (ThunkBehavior.throws e) = Except.error e ∧
    tryCatchFn (ThunkBehavior.throws e) =
      POutcome.resolved ⟨JSVal.jsNull, e⟩ ∧
    (tryCatchFn (ThunkBehavior.throws e)).isRejected = false ∧
    tryCatchFn (ThunkBehavior.throws (JSVal.rangeError "bad")) =
      POutcome.resolved ⟨JSVal.jsNull, JSVal.rangeError "bad"⟩ :=
  ⟨rfl, rfl, rfl, rfl⟩

/-- C6: tryCatchFn on a thunk returning the plain value 42 and on a thunk
returning a promise that resolves to 42 settle with the identical result
{ data: 42, error: null }; a thunk returning plain 7 yields
{ data: 7, error: null }. -/
theorem c6_sync_async_uniform :
    tryCatchFn (ThunkBehavior.returnsValue (JSVal.num 42)) =
      POutcome.resolved ⟨JSVal.num 42, JSVal.jsNull⟩ ∧
    tryCatchFn (ThunkBehavior.returnsPromise (POutcome.resolved (JSVal.num 42))) =
      POutcome.resolved ⟨JSVal.num 42, JSVal.jsNull⟩ ∧
    tryCatchFn (ThunkBehavior.returnsValue (JSVal.num 42)) =
      tryCatchFn (ThunkBehavior.returnsPromise (POutcome.resolved (JSVal.num 42))) ∧
    tryCatchFn (ThunkBehavior.returnsValue (JSVal.num 7)) =
      POutcome.resolved ⟨JSVal.num 7, JSVal.jsNull⟩ :=
  ⟨rfl, rfl, rfl, rfl⟩

/-- C7: a failure value that is not an error object (a plain string,
number, etc.) is passed through into the error slot exactly as caught, with
no validation or normalization, by both tryCatch and tryCatchFn. -/
theorem c7_nonerror_passthrough (e : JSVal) (h : isErrorObject e = false) :
    tryCatch (POutcome.rejected e) = POutcome.resolved ⟨JSVal.jsNull, e⟩ ∧
    tryCatchFn (ThunkBehavior.throws e) =
      POutcome.resolved ⟨JSVal.jsNull, e⟩ :=
  ⟨rfl, rfl⟩

/-- Witness for C7 at the thrown plain string "oops". -/
theorem c7_nonerror_passthrough_witness :
    isErrorObject (JSVal.str "oops") = false ∧
    tryCatch (POutcome.rejected (JSVal.str "oops")) =
      POutcome.resolved ⟨JSVal.jsNull, JSVal.str "oops"⟩ ∧
    tryCatchFn (ThunkBehavior.throws (JSVal.str "oops")) =
      POutcome.resolved ⟨JSVal.jsNull, JSVal.str "oops"⟩ := by
  have h := c7_nonerror_passthrough (JSVal.str "oops") (by decide)
  exact ⟨by decide, h.1, h.2⟩

/-- C8: the promise returned by tryCatch settles exactly when the input
promise settles; in particular a never-settling input leaves the returned
promise pending forever. -/
theorem c8_settles_iff (p : POutcome JSVal) :
    (tryCatch p).settles = p.settles ∧
    tryCatch POutcome.pending = POutcome.pending := by
  cases p <;> exact ⟨rfl, rfl⟩

/-- C9: for every promise p, tryCatchFn on the thunk that merely returns p
produces the same outcome as tryCatch applied to p directly. -/
theorem c9_fn_agrees_with_promise (p : POutcome JSVal) :
    tryCatchFn (ThunkBehavior.returnsPromise p) = tryCatch p := by
  cases p <;> rfl

/-- C10: an operation resolving to null, and one failing with the thrown
value null, both produce the record { data: null, error: null } through
tryCatch and tryCatchFn, and the error-is-null discrimination classifies
that record (hence a null-valued failure) as a success. -/
theorem c10_null_collapse :
    tryCatch (POutcome.resolved JSVal.jsNull) =
      POutcome.resolved ⟨JSVal.jsNull, JSVal.jsNull⟩ ∧
    tryCatch (POutcome.rejected JSVal.jsNull) =
      POutcome.resolved ⟨JSVal.jsNull, JSVal.jsNull⟩ ∧
    tryCatchFn (ThunkBehavior.returnsValue JSVal.jsNull) =
      POutcome.resolved ⟨JSVal.jsNull, JSVal.jsNull⟩ ∧
    tryCatchFn (ThunkBehavior.throws JSVal.jsNull) =
      POutcome.resolved ⟨JSVal.jsNull, JSVal.jsNull⟩ ∧
    classifiedAsSuccess ⟨JSVal.jsNull, JSVal.jsNull⟩ = true :=
  ⟨rfl, rfl, rfl, rfl, rfl⟩

end TryCatchTS
